import Mathlib

/-!
Shallow embedding of the CLEAVE networked-control-system testbed
(`src/cleave/base/network/backend.py`, `src/cleave/base/stats/recordable.py`,
`src/cleave/client/plant.py`) together with theorems settling the spec claims.

Conventions of the embedding:
* timestamps in seconds are rationals (`Rat`); nanosecond monotonic readings
  (`time.monotonic_ns()`) are integers (`Int`);
* byte strings are `List Nat`; a physical property mapping (PPM) is an
  association list `List (String × Rat)`;
* clock reads are drawn from an explicit stream of readings supplied to the
  function, in program order, so that timing behaviour is a parameter of the
  model and not an axiom;
* Python exceptions are `Except String`;
* the message codec (`protocol.py`) and the plant-side utilities
  (`utils.execute_periodically`, `utils.HookCollection`) are not part of the
  given sources; they are modelled from the specification where noted.
-/

namespace Cleave

/-- PPM: unordered map from short string names to numeric scalars. -/
abbrev PhyPropMapping := List (String × Rat)

/-- A UDP peer address `(host, port)`. -/
abbrev Addr := String × Nat

/-- Wire tag `SENSOR_SAMPLE = 1` (spec section 6). -/
def SENSOR_SAMPLE : Nat := 1

/-- Wire tag `CONTROL_COMMAND = 2` (spec section 6). -/
def CONTROL_COMMAND : Nat := 2

/-- A control message: tagged envelope with sequence number, timestamp in
seconds and a PPM payload (spec section 3; `protocol.py` is not among the
given sources, the shape is taken from the spec's schema). -/
structure Message where
  msg_type : Nat
  seq : Nat
  timestamp : Rat
  payload : PhyPropMapping
deriving DecidableEq

/-- Modelled from the spec: outcome of `parse_message_from_bytes` in the
missing `protocol.py` — either the distinguished no-message signal (raised as
`NoMessage` and caught in `datagramReceived`), a malformed input (raised as
`ValueError` or a msgpack error and caught in `datagramReceived`), or a parsed
message. -/
inductive ParseResult where
  | noMessage : ParseResult
  | malformed : ParseResult
  | ok : Message → ParseResult
deriving DecidableEq

/-- Modelled from the spec: `make_control_reply` of the missing `protocol.py`
— constructs a `CONTROL_COMMAND` with the request's `seq` copied, a fresh
timestamp (the clock reading `now` at reply construction) and the actuation
commands as payload. -/
def make_control_reply (m : Message) (act_cmds : PhyPropMapping) (now : Rat) :
    Message :=
  ⟨CONTROL_COMMAND, m.seq, now, act_cmds⟩

/-- One record of the `UDPControllerService` recordable, fields as in
`backend.py` lines 55-56. -/
structure SvcRecord where
  seq : Nat
  recv_timestamp : Rat
  recv_size : Nat
  process_time : Rat
  send_timestamp : Rat
  send_size : Nat
deriving DecidableEq

/-- Observable effects of handling one datagram: datagrams written on the
transport, records pushed, and warnings logged. -/
structure Effects where
  writes : List (List Nat × Addr)
  records : List SvcRecord
  warnings : Nat
deriving DecidableEq

/-- No effects. -/
def noEffects : Effects := ⟨[], [], 0⟩

/-- The closure built in `UDPControllerService.datagramReceived`
(`backend.py` lines 99-115).  It receives the actuation commands from the
controller together with the clock reading `reply_time` consumed by
`make_control_reply`; it builds the reply, serializes it, writes it to `addr`
and pushes one record. -/
def result_callback (serialize : Message → List Nat) (in_msg : Message)
    (recv_time : Rat) (in_size : Nat) (addr : Addr)
    (act_cmds : PhyPropMapping) (reply_time : Rat) : Effects :=
  let out_msg := make_control_reply in_msg act_cmds reply_time
  let out_dgram := serialize out_msg
  let out_size := out_dgram.length
  ⟨[(out_dgram, addr)],
   [⟨in_msg.seq, recv_time, in_size, out_msg.timestamp - recv_time,
     out_msg.timestamp, out_size⟩],
   0⟩

/-- `UDPControllerService.datagramReceived` (`backend.py` lines 84-130).
`recv_time` is the clock reading captured on entry (`time.time()` in the
source — the wall clock, not the monotonic clock).  Returns the immediate
effects together with the callback submitted to the controller, if any; the
controller may invoke that callback later (or never). -/
def datagramReceived (parse : List Nat → ParseResult)
    (serialize : Message → List Nat) (recv_time : Rat)
    (in_dgram : List Nat) (addr : Addr) :
    Effects × Option (PhyPropMapping → Rat → Effects) :=
  let in_size := in_dgram.length
  match parse in_dgram with
  | ParseResult.noMessage => (noEffects, none)
  | ParseResult.malformed => (⟨[], [], 1⟩, none)
  | ParseResult.ok in_msg =>
      if in_msg.msg_type = SENSOR_SAMPLE then
        (noEffects, some (result_callback serialize in_msg recv_time in_size addr))
      else
        (⟨[], [], 1⟩, none)

/-! ### Recordable substrate (`recordable.py`) -/

/-- A built record: association list of field name and value, in schema
order. -/
abbrev Record := List (String × Rat)

/-- A recorder's `notify`, which may raise. -/
abbrev NotifyFn := Record → Except String Unit

/-- `NamedRecordable` (`recordable.py` lines 59-82): a name, the required
field names, the optional fields with their defaults (namedtuple defaults
attach to the trailing fields, i.e. exactly the optional ones), and the
attached recorders in iteration order. -/
structure NamedRecordable where
  name : String
  record_fields : List String
  opt_record_fields : List (String × Rat)
  recorders : List NotifyFn

/-- All field names of the namedtuple class, required first then optional
(`recordable.py` line 65). -/
def NamedRecordable.allFields (nr : NamedRecordable) : List String :=
  nr.record_fields ++ nr.opt_record_fields.map Prod.fst

/-- First-match association lookup, as keyword-argument access. -/
def lookupField (k : String) : List (String × Rat) → Option Rat
  | [] => none
  | kv :: rest => if kv.1 = k then some kv.2 else lookupField k rest

/-- `self._record_cls(**kwargs)` (`recordable.py` line 76): namedtuple
construction succeeds iff every required field is supplied and every supplied
keyword is a schema field; optional fields fall back to their defaults.
`none` models the `TypeError` raised by the namedtuple constructor. -/
def mkRecord (nr : NamedRecordable) (kwargs : List (String × Rat)) :
    Option Record :=
  if (∀ f ∈ nr.record_fields, (lookupField f kwargs).isSome = true) ∧
      (∀ kv ∈ kwargs, kv.1 ∈ nr.allFields) then
    some (nr.record_fields.map (fun f => (f, (lookupField f kwargs).getD 0)) ++
      nr.opt_record_fields.map (fun fd => (fd.1, (lookupField fd.1 kwargs).getD fd.2)))
  else
    none

/-- The notification loop of `push_record` (`recordable.py` lines 77-78):
`for recorder in self._recorders: recorder.notify(record)`.  There is no
try/except around `notify`, so a raising recorder stops the loop and the
exception propagates.  Returns how many recorders had `notify` invoked, and
the propagated exception if any. -/
def notifyLoop : List NotifyFn → Record → Nat × Option String
  | [], _ => (0, none)
  | f :: fs, r =>
      match f r with
      | Except.error e => (1, some e)
      | Except.ok _ =>
          let p := notifyLoop fs r
          (p.1 + 1, p.2)

/-- Outcome of `push_record`. -/
inductive PushOutcome where
  | schemaError : PushOutcome
  | raised : String → PushOutcome
  | ok : Record → PushOutcome
deriving DecidableEq

/-- `NamedRecordable.push_record` (`recordable.py` lines 75-78): build the
record, then notify each recorder in turn.  Returns how many recorders were
notified together with the outcome. -/
def push_record (nr : NamedRecordable) (kwargs : List (String × Rat)) :
    Nat × PushOutcome :=
  match mkRecord nr kwargs with
  | none => (0, PushOutcome.schemaError)
  | some r =>
      let p := notifyLoop nr.recorders r
      match p.2 with
      | some e => (p.1, PushOutcome.raised e)
      | none => (p.1, PushOutcome.ok r)

/-! ### CSV recorder (`recordable.py` lines 85-152) -/

/-- One physical line of the CSV output file: the header row or one data
row. -/
inductive CSVLine where
  | header : List String → CSVLine
  | data : List Rat → CSVLine
deriving DecidableEq

/-- One append handed to a spawned flush thread (`recordable.py` lines
117-129): the chunk counter at flush time (which decides whether the header
is written) and the copy of the buffered rows taken synchronously on the
flushing thread's parent. -/
structure FlushTask where
  count : Nat
  rows : List (List Rat)
deriving DecidableEq

/-- The lines one flush thread appends to the file, atomically under the
per-recorder lock: the header exactly when the task is chunk 0, then the
task's rows. -/
def taskLines (fields : List String) (t : FlushTask) : List CSVLine :=
  (if t.count = 0 then [CSVLine.header fields] else []) ++
    t.rows.map CSVLine.data

/-- State of a `CSVRecorder`: the chunk size, the schema fields, the rows
currently buffered in the in-memory chunk (`_chunk_row_idx` is the buffer's
length), the chunk counter, the appends that have been handed to spawned
threads but have not yet executed, and the lines of the output file. -/
structure CSVRecorder where
  chunk_size : Nat
  fields : List String
  table_chunk : List (List Rat)
  chunk_count : Nat
  pending : List FlushTask
  file : List CSVLine
deriving DecidableEq

/-- `CSVRecorder.__init__` (`recordable.py` lines 86-110): empty buffer,
chunk counter zero, no threads spawned; `pre` is whatever the target file
held beforehand. -/
def mkCSVRecorder (fields : List String) (chunk_size : Nat)
    (pre : List CSVLine) : CSVRecorder :=
  ⟨chunk_size, fields, [], 0, [], pre⟩

/-- `CSVRecorder.initFile` (`recordable.py` lines 112-115): truncate the
output file. -/
def CSVRecorder.initFile (c : CSVRecorder) : CSVRecorder :=
  ⟨c.chunk_size, c.fields, c.table_chunk, c.chunk_count, c.pending, []⟩

/-- `CSVRecorder._flush_chunk_to_disk` (`recordable.py` lines 117-134): copy
the first `_chunk_row_idx` buffered rows and the chunk counter, hand the
append to a freshly spawned thread (it executes later, whenever the
scheduler runs it), reset the row index and bump the counter.  Only the
copy, the reset and the bump are synchronous with the caller. -/
def CSVRecorder.flush_chunk_to_disk (c : CSVRecorder) : CSVRecorder :=
  ⟨c.chunk_size, c.fields, [], c.chunk_count + 1,
   c.pending ++ [⟨c.chunk_count, c.table_chunk⟩], c.file⟩

/-- `CSVRecorder.notify` (`recordable.py` lines 139-146): write the record at
the current row index (an out-of-range write — only possible when
`chunk_size = 0` — raises, modelled by `none`), bump the index, and flush
when the chunk is full. -/
def CSVRecorder.notify (c : CSVRecorder) (row : List Rat) :
    Option CSVRecorder :=
  if c.table_chunk.length < c.chunk_size then
    let c1 : CSVRecorder :=
      ⟨c.chunk_size, c.fields, c.table_chunk ++ [row], c.chunk_count,
       c.pending, c.file⟩
    if c1.table_chunk.length = c.chunk_size then
      some c1.flush_chunk_to_disk
    else
      some c1
  else
    none

/-- A sequence of `notify` calls, in order. -/
def CSVRecorder.notifyAll (c : CSVRecorder) :
    List (List Rat) → Option CSVRecorder
  | [] => some c
  | row :: rows => match c.notify row with
      | none => none
      | some c1 => c1.notifyAll rows

/-- One spawned flush thread runs to completion: the `i`-th pending task (in
spawn order) acquires the lock and appends its lines to the file.  The
thread scheduler, not the program, chooses `i`, so appends need not happen
in flush order. -/
def CSVRecorder.runTask (c : CSVRecorder) (i : Nat) : Option CSVRecorder :=
  if h : i < c.pending.length then
    some ⟨c.chunk_size, c.fields, c.table_chunk, c.chunk_count,
      c.pending.eraseIdx i,
      c.file ++ taskLines c.fields (c.pending.get ⟨i, h⟩)⟩
  else
    none

/-- A scheduler-chosen sequence of flush-thread completions. -/
def CSVRecorder.runTasks (c : CSVRecorder) : List Nat → Option CSVRecorder
  | [] => some c
  | i :: rest => match c.runTask i with
      | none => none
      | some c1 => c1.runTasks rest

/-- `CSVRecorder.shutdown` (`recordable.py` lines 148-151): a final flush
whose thread — and only that one — is joined before returning
(`self._flush_chunk_to_disk().join()`, the comment says "wait for the final
write").  `sched` is the sequence of flush-thread completions the scheduler
interleaves before shutdown returns; the guard models the join: shutdown
only returns once the final flush's append is no longer pending.  Earlier
chunk threads may still be pending at return. -/
def CSVRecorder.shutdown (c : CSVRecorder) (sched : List Nat) :
    Option CSVRecorder :=
  match c.flush_chunk_to_disk.runTasks sched with
  | none => none
  | some c2 =>
      if ∀ t ∈ c2.pending, t.count ≠ c.chunk_count then some c2 else none

/-- The lines the file will hold once the current buffer is flushed and
every pending append has executed in spawn order: the quantity preserved by
every flush and extended one data line per `notify`. -/
def CSVRecorder.virt (c : CSVRecorder) : List CSVLine :=
  c.file ++ c.pending.flatMap (taskLines c.fields) ++
    (if c.chunk_count = 0 then [CSVLine.header c.fields] else []) ++
    c.table_chunk.map CSVLine.data

/-! ### Plant (`plant.py`) -/

/-- The environment a plant runs against: the stream of successive
`time.monotonic_ns()` readings, the actuator (indexed by how many times
`get_next_actuation` has been called), the state's `advance`, the sensor's
sample setter, and the number of registered hooks of each kind.
`σ` is the plant state type, `π` the sensor sample type, `α` the actuation
command type.  Hooks are modelled from the spec (`utils.HookCollection` is
not among the given sources): a hook's exception is logged and swallowed, so
only the number of hooks invoked is observable in the step trace. -/
structure PlantEnv (σ π α : Type) where
  clock : Nat → Int
  get_next_actuation : Nat → Except String (Option α)
  advance : σ → Int → Option α → Except String (σ × π)
  sensor_set : π → Except String Unit
  n_start : Nat
  n_pre : Nat
  n_end : Nat

/-- Mutable state of a `Plant`: `_state`, `_last_update`, `_step_cnt`, the
index of the next unread clock reading, and the sensor's current sample. -/
structure PlantState (σ π : Type) where
  state : σ
  last_update : Int
  step_cnt : Nat
  clock_idx : Nat
  sensor_sample : Option π
deriving DecidableEq

/-- `Plant.__init__` (`plant.py` lines 43-79): `_last_update` is set to the
monotonic clock at construction time (reading 0 of the stream) and the step
counter starts at 0. -/
def Plant.mk (env : PlantEnv σ π α) (init_state : σ) : PlantState σ π :=
  ⟨init_state, env.clock 0, 0, 1, none⟩

/-- Events of one simulation step, in occurrence order. -/
inductive StepEvent (α : Type) where
  | start_hooks : Nat → StepEvent α
  | get_actuation : StepEvent α
  | pre_sim_hooks : Nat → Option α → StepEvent α
  | advance_call : Int → Option α → StepEvent α
  | set_last_update : Int → StepEvent α
  | sensor_assign : StepEvent α
  | end_hooks : Nat → StepEvent α
  | inc_step : StepEvent α
deriving DecidableEq

/-- `Plant._step` (`plant.py` lines 150-170): start-of-step hooks, poll the
actuator, pre-sim hooks with the actuation as named argument, advance the
state with `dt_ns = now - _last_update`, set `_last_update` to a fresh clock
reading after the advance returns, publish the sample to the sensor, invoke
the end-of-step hooks and bump the step counter.  An exception from the
actuator, the advance or the sensor assignment propagates. -/
def Plant.step (env : PlantEnv σ π α) (s : PlantState σ π) :
    Except String (PlantState σ π × List (StepEvent α)) :=
  match env.get_next_actuation s.step_cnt with
  | Except.error e => Except.error e
  | Except.ok actuation =>
      let t1 := env.clock s.clock_idx
      let dt := t1 - s.last_update
      match env.advance s.state dt actuation with
      | Except.error e => Except.error e
      | Except.ok (st, sample) =>
          let t2 := env.clock (s.clock_idx + 1)
          match env.sensor_set sample with
          | Except.error e => Except.error e
          | Except.ok _ =>
              Except.ok (⟨st, t2, s.step_cnt + 1, s.clock_idx + 2, some sample⟩,
                [StepEvent.start_hooks env.n_start,
                 StepEvent.get_actuation,
                 StepEvent.pre_sim_hooks env.n_pre actuation,
                 StepEvent.advance_call dt actuation,
                 StepEvent.set_last_update t2,
                 StepEvent.sensor_assign,
                 StepEvent.end_hooks env.n_end,
                 StepEvent.inc_step])

/-- Modelled from the spec: `utils.execute_periodically` (not among the given
sources) runs the step on a monotonic cadence until the shutdown flag is set,
polling the flag between invocations only; an exception from the step
propagates to the caller (`Plant.run` catches it).  `flag k` is the value of
the shutdown event at the poll before the step with counter `k`; `fuel`
bounds the number of iterations in the model.  Returns the state reached and
the propagated exception, if any. -/
def execute_periodically (env : PlantEnv σ π α) (flag : Nat → Bool)
    (fuel : Nat) (s : PlantState σ π) : PlantState σ π × Option String :=
  match fuel with
  | 0 => (s, none)
  | Nat.succ n =>
      if flag s.step_cnt then (s, none)
      else
        match Plant.step env s with
        | Except.error e => (s, some e)
        | Except.ok (s1, _) => execute_periodically env flag n s1

/-- Outcome of `Plant.run`: final plant state, whether the shutdown event is
set, whether the sensor and the actuator were shut down, and the logged
exception, if any.  `Plant.run` is total: it never re-raises. -/
structure RunResult (σ π : Type) where
  final : PlantState σ π
  shutdown_set : Bool
  sensor_shutdown : Bool
  actuator_shutdown : Bool
  logged_error : Option String
deriving DecidableEq

/-- `Plant.run` (`plant.py` lines 176-194): clear the shutdown event, drive
`execute_periodically`, and on any exception log it and invoke
`Plant.shutdown` (`plant.py` lines 127-136), which sets the shutdown event
and shuts down the sensor and the actuator; the exception is not
re-raised. -/
def Plant.run (env : PlantEnv σ π α) (flag : Nat → Bool) (fuel : Nat)
    (s : PlantState σ π) : RunResult σ π :=
  let p := execute_periodically env flag fuel s
  match p.2 with
  | some e => ⟨p.1, true, true, true, some e⟩
  | none => ⟨p.1, false, false, false, none⟩

/-- Process-level view of a `Plant` for `start()`: the state of the
(cross-process) shutdown event, whether the underlying
`multiprocessing.Process.start` has already been called, and how many
execution domains were launched.  The event clear performed by `run` happens
later, in the child (`plant.py` line 180); it is a separate transition
(`PlantProc.run_prologue`), not part of the launch. -/
structure PlantProc where
  shutdown_is_set : Bool
  started : Bool
  launches : Nat
deriving DecidableEq

/-- `Plant.__init__` (`plant.py` lines 73-74): the shutdown event is created
and immediately set; no process has been started. -/
def PlantProc.init : PlantProc := ⟨true, false, 0⟩

/-- `multiprocessing.Process.start` (the `super().start()` of `plant.py`
line 174): a `Process` object is one-shot — a second call raises; a
successful call launches the execution domain. -/
def PlantProc.process_start (p : PlantProc) : Except String PlantProc :=
  if p.started then Except.error "cannot start a process twice"
  else Except.ok ⟨p.shutdown_is_set, true, p.launches + 1⟩

/-- `Plant.start` (`plant.py` lines 172-174): call the underlying
`Process.start` only while the shutdown event is set; otherwise return
without doing anything. -/
def PlantProc.start (p : PlantProc) : Except String PlantProc :=
  if p.shutdown_is_set then p.process_start else Except.ok p

/-- `Plant.run`'s first statement (`plant.py` line 180), executed in the
child process at some point after the launch: clear the shutdown event. -/
def PlantProc.run_prologue (p : PlantProc) : PlantProc :=
  ⟨false, p.started, p.launches⟩

/-- `Plant.shutdown` (`plant.py` lines 127-136) at the process-level view:
set the shutdown event. -/
def PlantProc.shutdown (p : PlantProc) : PlantProc :=
  ⟨true, p.started, p.launches⟩

/-! ### Concrete fixtures used by witnesses and counterexamples -/

/-- A sensor-sample request with sequence number 42. -/
def msg42 : Message := ⟨SENSOR_SAMPLE, 42, 0, [("x", 3/2)]⟩

/-- A parse function returning `msg42` on any input. -/
def parse42 : List Nat → ParseResult := fun _ => ParseResult.ok msg42

/-- A concrete serializer: tag byte, sequence byte, one byte per payload
entry. -/
def serFix : Message → List Nat :=
  fun m => m.msg_type :: m.seq :: m.payload.map (fun _ => 0)

/-- A parse function reporting the no-message sentinel on any input. -/
def parseNoMsg : List Nat → ParseResult := fun _ => ParseResult.noMessage

/-- A parse function reporting a malformed input on any input. -/
def parseMalformed : List Nat → ParseResult := fun _ => ParseResult.malformed

/-- A message of unrecognized type 99. -/
def msg99 : Message := ⟨99, 1, 0, []⟩

/-- A parse function returning `msg99` on any input. -/
def parse99 : List Nat → ParseResult := fun _ => ParseResult.ok msg99

/-- A recorder whose `notify` succeeds. -/
def notifyOk : NotifyFn := fun _ => Except.ok ()

/-- A recorder whose `notify` raises. -/
def notifyBoom : NotifyFn := fun _ => Except.error "boom"

/-- A recordable whose first recorder raises and whose second succeeds. -/
def nrBoom : NamedRecordable := ⟨"svc", ["a"], [], [notifyBoom, notifyOk]⟩

/-- A recordable whose first recorder succeeds and whose second raises. -/
def nrOkBoom : NamedRecordable := ⟨"svc", ["a"], [], [notifyOk, notifyBoom]⟩

/-- A recordable with one required field `a` and one optional field `b`
defaulting to 5. -/
def nrOpt : NamedRecordable := ⟨"plant", ["a"], [("b", 5)], []⟩

/-- A plant environment over integers: clock readings 100, 200, 300, ...; the
actuator always yields command 5; `advance` adds `dt` and the command to the
state and samples the previous state; the sensor setter succeeds; two
start-of-step hooks, one pre-sim hook, three end-of-step hooks. -/
def envFix : PlantEnv Int Int Int :=
  ⟨fun k => 100 * ((k : Int) + 1),
   fun _ => Except.ok (some 5),
   fun st dt a => Except.ok (st + dt + a.getD 0, st),
   fun _ => Except.ok (),
   2, 1, 3⟩

/-- A plant environment whose `advance` always raises. -/
def envBoom : PlantEnv Int Int Int :=
  ⟨fun k => (k : Int),
   fun _ => Except.ok none,
   fun _ _ _ => Except.error "boom",
   fun _ => Except.ok (),
   0, 0, 0⟩

/-! ## Theorems -/

/-- C2: for every received datagram, the controller service's triage is: a
`NoMessage` outcome is silently dropped (no warning), a malformed input is
dropped with one warning, and a parsed message whose type is not
`SENSOR_SAMPLE` is dropped with one warning; in all three cases no reply is
written, no record is pushed and no request is submitted. -/
theorem datagramReceived_triage (parse : List Nat → ParseResult)
    (serialize : Message → List Nat) (recv_time : Rat) (in_dgram : List Nat)
    (addr : Addr) :
    (parse in_dgram = ParseResult.noMessage →
      datagramReceived parse serialize recv_time in_dgram addr =
        (⟨[], [], 0⟩, none)) ∧
    (parse in_dgram = ParseResult.malformed →
      datagramReceived parse serialize recv_time in_dgram addr =
        (⟨[], [], 1⟩, none)) ∧
    (∀ m, parse in_dgram = ParseResult.ok m → m.msg_type ≠ SENSOR_SAMPLE →
      datagramReceived parse serialize recv_time in_dgram addr =
        (⟨[], [], 1⟩, none)) := by
  refine ⟨fun h => ?_, fun h => ?_, fun m h hm => ?_⟩
  · simp [datagramReceived, noEffects, h]
  · simp [datagramReceived, noEffects, h]
  · simp [datagramReceived, noEffects, h, hm]

/-- Witness for C2: the three triage branches evaluated on concrete
datagrams. -/
theorem datagramReceived_triage_witness :
    datagramReceived parseNoMsg serFix 5 [] ("h", 1) = (⟨[], [], 0⟩, none) ∧
    datagramReceived parseMalformed serFix 5 [7] ("h", 1) =
      (⟨[], [], 1⟩, none) ∧
    datagramReceived parse99 serFix 5 [7] ("h", 1) = (⟨[], [], 1⟩, none) :=
  ⟨(datagramReceived_triage parseNoMsg serFix 5 [] ("h", 1)).1 rfl,
   (datagramReceived_triage parseMalformed serFix 5 [7] ("h", 1)).2.1 rfl,
   (datagramReceived_triage parse99 serFix 5 [7] ("h", 1)).2.2 msg99 rfl
     (by decide)⟩

/-- C3: handling a datagram writes no reply and pushes no record by itself; a
reply (exactly one) is written and a record (exactly one) is pushed only by
an invocation of the callback handed to the controller. -/
theorem reply_and_record_only_in_callback (parse : List Nat → ParseResult)
    (serialize : Message → List Nat) (recv_time : Rat) (in_dgram : List Nat)
    (addr : Addr) :
    ((datagramReceived parse serialize recv_time in_dgram addr).1.writes = [] ∧
     (datagramReceived parse serialize recv_time in_dgram addr).1.records = []) ∧
    (∀ cb, (datagramReceived parse serialize recv_time in_dgram addr).2 = some cb →
      ∀ act_cmds reply_time,
        (cb act_cmds reply_time).writes.length = 1 ∧
        (cb act_cmds reply_time).records.length = 1) := by
  constructor
  · cases h : parse in_dgram with
    | noMessage => simp [datagramReceived, h, noEffects]
    | malformed => simp [datagramReceived, h]
    | ok m =>
        by_cases ht : m.msg_type = SENSOR_SAMPLE <;>
          simp [datagramReceived, h, ht, noEffects]
  · intro cb hcb act_cmds reply_time
    cases h : parse in_dgram with
    | noMessage => simp [datagramReceived, h, noEffects] at hcb
    | malformed => simp [datagramReceived, h] at hcb
    | ok m =>
        by_cases ht : m.msg_type = SENSOR_SAMPLE
        · simp [datagramReceived, h, ht, noEffects] at hcb
          subst hcb
          simp [result_callback]
        · simp [datagramReceived, h, ht] at hcb

/-- Witness for C3: on a concrete sensor sample the immediate effects are
empty and the submitted callback writes one reply and pushes one record. -/
theorem reply_and_record_only_in_callback_witness :
    ((datagramReceived parse42 serFix 5 [9, 9] ("h", 1)).1.writes = [] ∧
     (datagramReceived parse42 serFix 5 [9, 9] ("h", 1)).1.records = []) ∧
    ((result_callback serFix msg42 5 2 ("h", 1) [] 7).writes.length = 1 ∧
     (result_callback serFix msg42 5 2 ("h", 1) [] 7).records.length = 1) :=
  ⟨(reply_and_record_only_in_callback parse42 serFix 5 [9, 9] ("h", 1)).1,
   (reply_and_record_only_in_callback parse42 serFix 5 [9, 9] ("h", 1)).2
     (result_callback serFix msg42 5 2 ("h", 1)) rfl [] 7⟩

/-- C9 counterexample: the first `start()` launches the process but returns
with the shutdown event still set — the clear is `run()`'s first statement,
executed later in the child — so a second back-to-back `start()` reaches
`Process.start` again and raises (a `multiprocessing.Process` is one-shot)
instead of being a no-op. -/
theorem plant_start_second_call_raises :
    PlantProc.init.start = Except.ok ⟨true, true, 1⟩ ∧
    (⟨true, true, 1⟩ : PlantProc).start =
      Except.error "cannot start a process twice" :=
  ⟨rfl, rfl⟩

/-- C9 (amended): `start()` calls the underlying `Process.start` only while
the shutdown event is set.  Once the launched `run()` has cleared the event,
a further `start()` is a no-op — it does not raise and launches nothing.  A
`start()` that runs while the event is still (or again) set on an
already-started plant raises from `Process.start`; in no case is a second
execution domain launched. -/
theorem plant_start_no_second_launch (p q : PlantProc) :
    (p.shutdown_is_set = false → p.start = Except.ok p) ∧
    (p.started = true → p.start = Except.ok q → q = p) ∧
    (p.started = true → p.shutdown_is_set = true →
      p.start = Except.error "cannot start a process twice") ∧
    p.run_prologue.start = Except.ok p.run_prologue := by
  refine ⟨fun h => ?_, fun hs hok => ?_, fun hs hset => ?_, ?_⟩
  · simp [PlantProc.start, h]
  · by_cases hset : p.shutdown_is_set
    · rw [PlantProc.start, if_pos hset, PlantProc.process_start,
        if_pos hs] at hok
      exact absurd hok (by simp)
    · rw [PlantProc.start, if_neg hset] at hok
      exact (Except.ok.inj hok).symm
  · rw [PlantProc.start, if_pos hset, PlantProc.process_start, if_pos hs]
  · simp [PlantProc.start, PlantProc.run_prologue]

/-- Witness for C9 (amended): a started plant whose child has cleared the
event treats `start` as a no-op; a started plant with the event set raises;
the run prologue always re-enables the no-op behaviour. -/
theorem plant_start_no_second_launch_witness :
    (⟨false, true, 1⟩ : PlantProc).start =
      Except.ok (⟨false, true, 1⟩ : PlantProc) ∧
    (⟨true, true, 1⟩ : PlantProc).start =
      Except.error "cannot start a process twice" ∧
    (PlantProc.run_prologue ⟨true, true, 1⟩).start =
      Except.ok (PlantProc.run_prologue ⟨true, true, 1⟩) :=
  ⟨(plant_start_no_second_launch ⟨false, true, 1⟩ ⟨false, true, 1⟩).1 rfl,
   (plant_start_no_second_launch ⟨true, true, 1⟩ ⟨true, true, 1⟩).2.2.1 rfl
     rfl,
   (plant_start_no_second_launch ⟨true, true, 1⟩ ⟨true, true, 1⟩).2.2.2⟩

/-- C1 counterexample: `recv_time` is captured with `time.time()` — the wall
clock, not the monotonic clock — and so is the reply's timestamp; with
readings `recv_time = 1` at receipt and `0` at reply construction (the wall
clock may step backwards between the two), the pushed record has
`process_time = -1 < 0`, so `process_time` is not always non-negative. -/
theorem svc_record_process_time_negative :
    (datagramReceived parse42 serFix 1 [9, 9] ("h", 1)).2 =
      some (result_callback serFix msg42 1 2 ("h", 1)) ∧
    (result_callback serFix msg42 1 2 ("h", 1) [] 0).records =
      [⟨42, 1, 2, -1, 0, 2⟩] ∧
    ¬ (0 : Rat) ≤ -1 := by
  refine ⟨rfl, ?_, by norm_num⟩
  simp [result_callback, make_control_reply, serFix, msg42]

/-- C1 (amended): for a datagram parsed as a `SENSOR_SAMPLE`, the record
pushed by the callback satisfies `seq = request.seq`,
`recv_size = |dgram|`, `send_size = |serialize(reply)|`,
`send_timestamp = reply.timestamp` and
`process_time = reply.timestamp - recv_time`, which is non-negative whenever
the clock reading at reply construction is not before `recv_time` (both are
wall-clock `time.time()` readings in the source, so this can fail if the
wall clock steps backwards). -/
theorem svc_record_fields (parse : List Nat → ParseResult)
    (serialize : Message → List Nat) (recv_time : Rat) (in_dgram : List Nat)
    (addr : Addr) (m : Message)
    (hp : parse in_dgram = ParseResult.ok m)
    (ht : m.msg_type = SENSOR_SAMPLE) :
    (datagramReceived parse serialize recv_time in_dgram addr).2 =
      some (result_callback serialize m recv_time in_dgram.length addr) ∧
    ∀ act_cmds reply_time,
      (result_callback serialize m recv_time in_dgram.length addr
          act_cmds reply_time).records =
        [⟨m.seq, recv_time, in_dgram.length,
          (make_control_reply m act_cmds reply_time).timestamp - recv_time,
          (make_control_reply m act_cmds reply_time).timestamp,
          (serialize (make_control_reply m act_cmds reply_time)).length⟩] ∧
      (recv_time ≤ reply_time →
        0 ≤ (make_control_reply m act_cmds reply_time).timestamp - recv_time) := by
  refine ⟨by simp [datagramReceived, hp, ht], fun act_cmds reply_time => ⟨rfl, ?_⟩⟩
  intro hle
  simpa [make_control_reply] using hle

/-- Witness for C1 (amended): concrete sensor sample with `recv_time = 1`
and reply construction at time 2. -/
theorem svc_record_fields_witness :
    (datagramReceived parse42 serFix 1 [9, 9] ("h", 1)).2 =
      some (result_callback serFix msg42 1 2 ("h", 1)) ∧
    (result_callback serFix msg42 1 2 ("h", 1) [] 2).records =
      [⟨msg42.seq, 1, 2,
        (make_control_reply msg42 [] 2).timestamp - 1,
        (make_control_reply msg42 [] 2).timestamp,
        (serFix (make_control_reply msg42 [] 2)).length⟩] ∧
    (0 : Rat) ≤ (make_control_reply msg42 [] 2).timestamp - 1 :=
  ⟨(svc_record_fields parse42 serFix 1 [9, 9] ("h", 1) msg42 rfl rfl).1,
   ((svc_record_fields parse42 serFix 1 [9, 9] ("h", 1) msg42 rfl rfl).2 [] 2).1,
   ((svc_record_fields parse42 serFix 1 [9, 9] ("h", 1) msg42 rfl rfl).2 [] 2).2
     (by norm_num)⟩

/-- C4 counterexample: `push_record` has no try/except around
`recorder.notify` (`recordable.py` lines 77-78): with two attached recorders
of which the first raises, the exception propagates out of `push_record` and
only 1 of the 2 recorders had `notify` invoked. -/
theorem push_record_raises :
    push_record nrBoom [("a", 1)] = (1, PushOutcome.raised "boom") ∧
    nrBoom.recorders.length = 2 := by
  constructor
  · rfl
  · rfl

/-- C4 (amended): an exception raised by an attached recorder's `notify`
propagates out of `push_record` to the producer, and the recorders after it
in iteration order do not receive the record: with `pre` succeeding
recorders before the raising one, exactly `pre.length + 1` recorders have
`notify` invoked. -/
theorem push_record_error_propagates (nr : NamedRecordable)
    (kwargs : List (String × Rat)) (r : Record) (pre post : List NotifyFn)
    (f : NotifyFn) (e : String)
    (hrec : nr.recorders = pre ++ f :: post)
    (hmk : mkRecord nr kwargs = some r)
    (hpre : ∀ g ∈ pre, g r = Except.ok ())
    (hf : f r = Except.error e) :
    push_record nr kwargs = (pre.length + 1, PushOutcome.raised e) := by
  have hloop : ∀ pre1 : List NotifyFn, (∀ g ∈ pre1, g r = Except.ok ()) →
      notifyLoop (pre1 ++ f :: post) r = (pre1.length + 1, some e) := by
    intro pre1
    induction pre1 with
    | nil => intro _; simp [notifyLoop, hf]
    | cons g gs ih =>
        intro hall
        have hg : g r = Except.ok () := hall g (by simp)
        have hgs := ih (fun x hx => hall x (by simp [hx]))
        simp [notifyLoop, hg, hgs]
  rw [push_record, hmk]
  simp only [hrec, hloop pre hpre]

/-- Witness for C4 (amended): one succeeding recorder followed by a raising
one — both are invoked, the exception propagates. -/
theorem push_record_error_propagates_witness :
    push_record nrOkBoom [("a", 1)] = (2, PushOutcome.raised "boom") :=
  push_record_error_propagates nrOkBoom [("a", 1)] [("a", 1)] [notifyOk] []
    notifyBoom "boom" rfl rfl
    (by intro g hg; rw [List.mem_singleton] at hg; subst hg; rfl) rfl

/-- Keyword lookup succeeds for a supplied key. -/
theorem lookupField_isSome (k : String) (l : List (String × Rat))
    (h : k ∈ l.map Prod.fst) : (lookupField k l).isSome = true := by
  induction l with
  | nil => simp at h
  | cons kv rest ih =>
      by_cases hk : kv.1 = k
      · simp [lookupField, hk]
      · rw [List.map_cons, List.mem_cons] at h
        rcases h with h | h
        · exact absurd h.symm hk
        · simpa [lookupField, hk] using ih h

/-- Keyword lookup fails for an unsupplied key. -/
theorem lookupField_eq_none (k : String) (l : List (String × Rat))
    (h : k ∉ l.map Prod.fst) : lookupField k l = none := by
  induction l with
  | nil => rfl
  | cons kv rest ih =>
      rw [List.map_cons, List.mem_cons] at h
      push_neg at h
      have hstep : lookupField k (kv :: rest) =
          if kv.1 = k then some kv.2 else lookupField k rest := rfl
      rw [hstep, if_neg (fun he => h.1 he.symm)]
      exact ih h.2

/-- C5: `push_record` with a missing required field or an unknown field name
fails with a schema error and notifies no recorder; when exactly the
required fields are supplied (and the schema's field names are distinct, as
the namedtuple constructor demands), the built record pairs every optional
field with its default value. -/
theorem push_record_schema_check (nr : NamedRecordable)
    (kwargs : List (String × Rat)) :
    ((∃ f ∈ nr.record_fields, lookupField f kwargs = none) ∨
      (∃ kv ∈ kwargs, kv.1 ∉ nr.allFields) →
      push_record nr kwargs = (0, PushOutcome.schemaError)) ∧
    ((∀ f ∈ nr.record_fields, f ∈ kwargs.map Prod.fst) →
      (∀ kv ∈ kwargs, kv.1 ∈ nr.record_fields) →
      nr.allFields.Nodup →
      mkRecord nr kwargs =
        some (nr.record_fields.map
            (fun f => (f, (lookupField f kwargs).getD 0)) ++
          nr.opt_record_fields.map (fun fd => (fd.1, fd.2)))) := by
  constructor
  · intro h
    have hnone : mkRecord nr kwargs = none := by
      rw [mkRecord, if_neg]
      intro hcond
      rcases h with ⟨f, hf, hl⟩ | ⟨kv, hkv, hn⟩
      · have := hcond.1 f hf
        rw [hl] at this
        simp at this
      · exact hn (hcond.2 kv hkv)
    rw [push_record, hnone]
  · intro hreq hsub hnd
    have hdisj : ∀ fd ∈ nr.opt_record_fields, fd.1 ∉ nr.record_fields := by
      intro fd hfd hmem
      have := (List.nodup_append.mp hnd).2.2
      exact this hmem (List.mem_map_of_mem Prod.fst hfd)
    have hcond : (∀ f ∈ nr.record_fields, (lookupField f kwargs).isSome = true) ∧
        (∀ kv ∈ kwargs, kv.1 ∈ nr.allFields) := by
      refine ⟨fun f hf => lookupField_isSome f kwargs (hreq f hf),
        fun kv hkv => ?_⟩
      exact List.mem_append_left _ (hsub kv hkv)
    rw [mkRecord, if_pos hcond]
    congr 1
    apply congrArg
    apply List.map_congr_left
    intro fd hfd
    have h1 : fd.1 ∉ kwargs.map Prod.fst := by
      intro hmem
      rcases List.mem_map.mp hmem with ⟨kv, hkv, hfst⟩
      exact hdisj fd hfd (hfst ▸ hsub kv hkv)
    rw [lookupField_eq_none fd.1 kwargs h1]
    rfl

/-- Witness for C5: on a recordable with required field `a` and optional
field `b` defaulting to 5, an unknown keyword fails with a schema error
notifying nobody, and supplying exactly `a` builds the record with `b = 5`. -/
theorem push_record_schema_check_witness :
    push_record nrOpt [("z", 1)] = (0, PushOutcome.schemaError) ∧
    mkRecord nrOpt [("a", 7)] =
      some (nrOpt.record_fields.map
          (fun f => (f, (lookupField f [("a", 7)]).getD 0)) ++
        nrOpt.opt_record_fields.map (fun fd => (fd.1, fd.2))) :=
  ⟨(push_record_schema_check nrOpt [("z", 1)]).1
      (Or.inr ⟨("z", 1), by decide, by decide⟩),
   (push_record_schema_check nrOpt [("a", 7)]).2 (by decide) (by decide)
      (by decide)⟩

/-- A flush leaves the virtual file contents unchanged: the buffer's lines
move into the newly spawned task. -/
theorem CSVRecorder.virt_flush (c : CSVRecorder) :
    c.flush_chunk_to_disk.virt = c.virt := by
  simp [CSVRecorder.virt, CSVRecorder.flush_chunk_to_disk, taskLines,
    List.flatMap_append]

/-- One `notify` succeeds from a non-full buffer, appends exactly one data
line to the virtual file contents, leaves the buffer non-full, and touches
neither the schema fields nor the physical file. -/
theorem CSVRecorder.notify_spec (c : CSVRecorder) (row : List Rat)
    (h : c.table_chunk.length < c.chunk_size) :
    ∃ c1, c.notify row = some c1 ∧
      c1.virt = c.virt ++ [CSVLine.data row] ∧
      c1.table_chunk.length < c1.chunk_size ∧
      c1.fields = c.fields ∧ c1.file = c.file := by
  have hne : (c.table_chunk ++ [row]).length = c.table_chunk.length + 1 := by
    simp
  by_cases hfull : c.table_chunk.length + 1 = c.chunk_size
  · have heq : c.notify row = some (CSVRecorder.flush_chunk_to_disk
        ⟨c.chunk_size, c.fields, c.table_chunk ++ [row], c.chunk_count,
         c.pending, c.file⟩) := by
      simp [CSVRecorder.notify, h, hne, hfull]
    refine ⟨_, heq, ?_, ?_, rfl, rfl⟩
    · rw [CSVRecorder.virt_flush]
      simp [CSVRecorder.virt]
    · show ([] : List (List Rat)).length < c.chunk_size
      simp only [List.length_nil]
      omega
  · have heq : c.notify row = some
        ⟨c.chunk_size, c.fields, c.table_chunk ++ [row], c.chunk_count,
         c.pending, c.file⟩ := by
      simp [CSVRecorder.notify, h, hne, hfull]
    refine ⟨_, heq, ?_, ?_, rfl, rfl⟩
    · simp [CSVRecorder.virt]
    · show (c.table_chunk ++ [row]).length < c.chunk_size
      rw [hne]
      omega

/-- A run of `notify` calls from a non-full buffer succeeds, appends the
rows, in order, to the virtual file contents, and touches neither the
schema fields nor the physical file. -/
theorem CSVRecorder.notifyAll_spec (rows : List (List Rat)) :
    ∀ c : CSVRecorder, c.table_chunk.length < c.chunk_size →
      ∃ cf, c.notifyAll rows = some cf ∧
        cf.virt = c.virt ++ rows.map CSVLine.data ∧
        cf.table_chunk.length < cf.chunk_size ∧
        cf.fields = c.fields ∧ cf.file = c.file := by
  induction rows with
  | nil => intro c h; exact ⟨c, rfl, by simp, h, rfl, rfl⟩
  | cons row rows ih =>
      intro c h
      obtain ⟨c1, h1, h2, h3, h4, h5⟩ := CSVRecorder.notify_spec c row h
      obtain ⟨cf, h6, h7, h8, h9, h10⟩ := ih c1 h3
      refine ⟨cf, ?_, ?_, h8, h9.trans h4, h10.trans h5⟩
      · rw [CSVRecorder.notifyAll, h1]
        exact h6
      · rw [h7, h2]
        simp

/-- Removing the `i`-th element of a list permutes it to that element
followed by the remainder. -/
theorem perm_get_cons_eraseIdx {α : Type} :
    ∀ (l : List α) (i : Nat) (h : i < l.length),
      l.Perm (l.get ⟨i, h⟩ :: l.eraseIdx i) := by
  intro l
  induction l with
  | nil => intro i h; simp at h
  | cons a t ih =>
      intro i h
      cases i with
      | zero => exact List.Perm.refl _
      | succ j =>
          have hj : j < t.length := by simpa using h
          have h2 : (a :: t).Perm (a :: (t.get ⟨j, hj⟩ :: t.eraseIdx j)) :=
            (ih j hj).cons a
          exact h2.trans (List.Perm.swap _ _ _)

/-- One flush-thread completion preserves the schema fields and permutes
file-plus-pending lines to themselves: it only moves one task's lines from
the pending appends into the file. -/
theorem CSVRecorder.runTask_perm (c c' : CSVRecorder) (i : Nat)
    (h : c.runTask i = some c') :
    c'.fields = c.fields ∧
    (c'.file ++ c'.pending.flatMap (taskLines c.fields)).Perm
      (c.file ++ c.pending.flatMap (taskLines c.fields)) := by
  rw [CSVRecorder.runTask] at h
  split at h
  · next hi =>
      obtain rfl := Option.some.inj h
      refine ⟨rfl, ?_⟩
      have hb : (c.pending.flatMap (taskLines c.fields)).Perm
          ((c.pending.get ⟨i, hi⟩ :: c.pending.eraseIdx i).flatMap
            (taskLines c.fields)) :=
        (perm_get_cons_eraseIdx c.pending i hi).flatMap_right _
      rw [List.flatMap_cons] at hb
      show ((c.file ++ taskLines c.fields (c.pending.get ⟨i, hi⟩)) ++
          (c.pending.eraseIdx i).flatMap (taskLines c.fields)).Perm
        (c.file ++ c.pending.flatMap (taskLines c.fields))
      rw [List.append_assoc]
      exact List.Perm.append_left c.file hb.symm
  · simp at h

/-- Any scheduler-chosen sequence of flush-thread completions preserves the
schema fields and the multiset of file-plus-pending lines. -/
theorem CSVRecorder.runTasks_perm (sched : List Nat) :
    ∀ c c2 : CSVRecorder, c.runTasks sched = some c2 →
      c2.fields = c.fields ∧
      (c2.file ++ c2.pending.flatMap (taskLines c.fields)).Perm
        (c.file ++ c.pending.flatMap (taskLines c.fields)) := by
  induction sched with
  | nil =>
      intro c c2 h
      rw [CSVRecorder.runTasks] at h
      obtain rfl := Option.some.inj h
      exact ⟨rfl, List.Perm.refl _⟩
  | cons i rest ih =>
      intro c c2 h
      rw [CSVRecorder.runTasks] at h
      cases hrt : c.runTask i with
      | none => rw [hrt] at h; simp at h
      | some c1 =>
          rw [hrt] at h
          obtain ⟨hf1, hp1⟩ := CSVRecorder.runTask_perm c c1 i hrt
          obtain ⟨hf2, hp2⟩ := ih c1 c2 h
          refine ⟨hf2.trans hf1, ?_⟩
          rw [hf1] at hp2
          exact hp2.trans hp1

/-- C6 counterexample: chunk size 1, two records pushed, then `shutdown`.
The scheduler runs chunk 1's append and the final (empty) flush — which
`shutdown` joins — but chunk 0's thread is still pending when `shutdown`
returns: the file holds only the second record, with no header and the
first record missing, refuting post-shutdown completeness, push order,
row count and header-first position. -/
theorem csv_shutdown_incomplete :
    (((mkCSVRecorder ["a"] 1 []).initFile).notifyAll [[1], [2]]).bind
        (fun cf => cf.shutdown [1, 1]) =
      some ⟨1, ["a"], [], 3, [⟨0, [[1]]⟩], [CSVLine.data [2]]⟩ ∧
    ¬ [CSVLine.data [2]] = CSVLine.header ["a"] ::
        ([[1], [2]] : List (List Rat)).map CSVLine.data := by
  constructor
  · rfl
  · decide

/-- C6 (amended): after `initFile` and a sequence of `notify` calls, the
final flush leaves the physical file still empty and hands the scheduler a
list of pending appends whose lines, in flush order, are exactly the header
followed by the pushed records in push order; whatever completion order the
scheduler picks before `shutdown` returns, the file lines together with the
still-pending lines are a permutation of that — so once every spawned flush
thread has completed, the file holds the header exactly once and exactly
the pushed records.  At `shutdown`'s return only the final flush's append
is guaranteed complete. -/
theorem csv_chunk_appends (fields : List String) (cs : Nat)
    (pre : List CSVLine) (rows : List (List Rat)) (h : 0 < cs) :
    ∃ cf, ((mkCSVRecorder fields cs pre).initFile).notifyAll rows = some cf ∧
      cf.flush_chunk_to_disk.file = [] ∧
      cf.flush_chunk_to_disk.pending.flatMap (taskLines fields) =
        CSVLine.header fields :: rows.map CSVLine.data ∧
      ∀ sched c2, cf.shutdown sched = some c2 →
        (c2.file ++ c2.pending.flatMap (taskLines fields)).Perm
          (CSVLine.header fields :: rows.map CSVLine.data) ∧
        (c2.pending = [] →
          c2.file.Perm (CSVLine.header fields :: rows.map CSVLine.data)) := by
  obtain ⟨cf, h1, h2, h3, hfield, hfile⟩ := CSVRecorder.notifyAll_spec rows
    ((mkCSVRecorder fields cs pre).initFile)
    (by simpa [mkCSVRecorder, CSVRecorder.initFile] using h)
  have hf : cf.fields = fields := hfield
  have hfl : cf.file = ([] : List CSVLine) := hfile
  have hvirt : cf.virt = CSVLine.header fields :: rows.map CSVLine.data := by
    rw [h2]
    simp [CSVRecorder.virt, mkCSVRecorder, CSVRecorder.initFile]
  have hkey : cf.flush_chunk_to_disk.pending.flatMap (taskLines fields) =
      CSVLine.header fields :: rows.map CSVLine.data := by
    have hv : cf.flush_chunk_to_disk.virt =
        cf.flush_chunk_to_disk.pending.flatMap
          (taskLines cf.flush_chunk_to_disk.fields) := by
      simp [CSVRecorder.virt, CSVRecorder.flush_chunk_to_disk, hfl]
    have hff : cf.flush_chunk_to_disk.fields = fields := hf
    have hx : cf.flush_chunk_to_disk.pending.flatMap
        (taskLines cf.flush_chunk_to_disk.fields) =
        CSVLine.header fields :: rows.map CSVLine.data := by
      rw [← hv, CSVRecorder.virt_flush, hvirt]
    rw [hff] at hx
    exact hx
  refine ⟨cf, h1, by simp [CSVRecorder.flush_chunk_to_disk, hfl], hkey, ?_⟩
  intro sched c2 hsd
  rw [CSVRecorder.shutdown] at hsd
  cases hrt : cf.flush_chunk_to_disk.runTasks sched with
  | none =>
      rw [hrt] at hsd
      have hcontra : (none : Option CSVRecorder) = some c2 := hsd
      exact Option.noConfusion hcontra
  | some c3 =>
      rw [hrt] at hsd
      have hsd2 : (if ∀ t ∈ c3.pending, t.count ≠ cf.chunk_count then some c3
          else none) = some c2 := hsd
      by_cases hj : ∀ t ∈ c3.pending, t.count ≠ cf.chunk_count
      · rw [if_pos hj] at hsd2
        obtain rfl := Option.some.inj hsd2
        obtain ⟨hf3, hp3⟩ :=
          CSVRecorder.runTasks_perm sched cf.flush_chunk_to_disk c3 hrt
        have hff : cf.flush_chunk_to_disk.fields = fields := hf
        rw [hff] at hp3
        have hbase : (cf.flush_chunk_to_disk.file ++
            cf.flush_chunk_to_disk.pending.flatMap (taskLines fields)) =
            CSVLine.header fields :: rows.map CSVLine.data := by
          have hfe : cf.flush_chunk_to_disk.file = ([] : List CSVLine) := by
            simp [CSVRecorder.flush_chunk_to_disk, hfl]
          rw [hfe, hkey]
          rfl
        rw [hbase] at hp3
        refine ⟨hp3, fun hemp => ?_⟩
        rw [hemp] at hp3
        simpa using hp3
      · rw [if_neg hj] at hsd2
        exact Option.noConfusion hsd2

/-- Witness for C6 (amended): chunk size 2 with three records — chunk 0
(two rows, with the header) and the final flush (one row) are the pending
appends; any schedule accepted by `shutdown` preserves their lines. -/
theorem csv_chunk_appends_witness :
    ∃ cf, ((mkCSVRecorder ["a"] 2 []).initFile).notifyAll
        [[1], [2], [3]] = some cf ∧
      cf.flush_chunk_to_disk.file = [] ∧
      cf.flush_chunk_to_disk.pending.flatMap (taskLines ["a"]) =
        CSVLine.header ["a"] ::
          ([[1], [2], [3]] : List (List Rat)).map CSVLine.data ∧
      ∀ sched c2, cf.shutdown sched = some c2 →
        (c2.file ++ c2.pending.flatMap (taskLines ["a"])).Perm
          (CSVLine.header ["a"] ::
            ([[1], [2], [3]] : List (List Rat)).map CSVLine.data) ∧
        (c2.pending = [] →
          c2.file.Perm (CSVLine.header ["a"] ::
            ([[1], [2], [3]] : List (List Rat)).map CSVLine.data)) :=
  csv_chunk_appends ["a"] 2 [] [[1], [2], [3]] (by decide)

/-- C7: a successful plant step performs, in order: start-of-step hooks,
`get_next_actuation`, pre-sim hooks with the actuation as named argument,
`advance` with `dt` equal to the current monotonic reading minus
`last_update`, the assignment of `last_update` to a fresh monotonic reading
taken after the advance returns, the sample assignment to the sensor, the
end-of-step hooks, and a step-counter increment of exactly one. -/
theorem plant_step_order (env : PlantEnv σ π α) (s : PlantState σ π)
    (act : Option α) (st : σ) (sample : π)
    (ha : env.get_next_actuation s.step_cnt = Except.ok act)
    (hadv : env.advance s.state (env.clock s.clock_idx - s.last_update) act =
      Except.ok (st, sample))
    (hs : env.sensor_set sample = Except.ok ()) :
    Plant.step env s = Except.ok
      (⟨st, env.clock (s.clock_idx + 1), s.step_cnt + 1, s.clock_idx + 2,
         some sample⟩,
       [StepEvent.start_hooks env.n_start,
        StepEvent.get_actuation,
        StepEvent.pre_sim_hooks env.n_pre act,
        StepEvent.advance_call (env.clock s.clock_idx - s.last_update) act,
        StepEvent.set_last_update (env.clock (s.clock_idx + 1)),
        StepEvent.sensor_assign,
        StepEvent.end_hooks env.n_end,
        StepEvent.inc_step]) := by
  simp [Plant.step, ha, hadv, hs]

/-- Witness for C7: one step of the concrete integer plant environment,
starting from the freshly constructed plant. -/
theorem plant_step_order_witness :
    Plant.step envFix (Plant.mk envFix 7) = Except.ok
      (⟨112, 300, 1, 3, some 7⟩,
       [StepEvent.start_hooks 2,
        StepEvent.get_actuation,
        StepEvent.pre_sim_hooks 1 (some 5),
        StepEvent.advance_call 100 (some 5),
        StepEvent.set_last_update 300,
        StepEvent.sensor_assign,
        StepEvent.end_hooks 3,
        StepEvent.inc_step]) :=
  plant_step_order envFix (Plant.mk envFix 7) (some 5) 112 7 rfl rfl rfl

/-- C10: `_last_update` is initialized to the monotonic clock at
construction time (reading 0), so the `dt_ns` passed to the first `advance`
equals the first in-step clock reading minus the construction-time reading —
the elapsed time since the `Plant` object was constructed. -/
theorem first_dt_measures_time_since_construction (env : PlantEnv σ π α)
    (init_state : σ) (s1 : PlantState σ π) (tr : List (StepEvent α))
    (h : Plant.step env (Plant.mk env init_state) = Except.ok (s1, tr)) :
    ∃ act, StepEvent.advance_call (env.clock 1 - env.clock 0) act ∈ tr := by
  cases ha : env.get_next_actuation 0 with
  | error e =>
      have hstep : Plant.step env (Plant.mk env init_state) =
          Except.error e := by
        simp [Plant.step, Plant.mk, ha]
      rw [hstep] at h
      simp at h
  | ok act =>
      cases hadv : env.advance init_state (env.clock 1 - env.clock 0) act with
      | error e =>
          have hstep : Plant.step env (Plant.mk env init_state) =
              Except.error e := by
            simp [Plant.step, Plant.mk, ha, hadv]
          rw [hstep] at h
          simp at h
      | ok p =>
          obtain ⟨st, sample⟩ := p
          cases hs : env.sensor_set sample with
          | error e =>
              have hstep : Plant.step env (Plant.mk env init_state) =
                  Except.error e := by
                simp [Plant.step, Plant.mk, ha, hadv, hs]
              rw [hstep] at h
              simp at h
          | ok u =>
              have hstep : Plant.step env (Plant.mk env init_state) =
                  Except.ok (⟨st, env.clock 2, 1, 3, some sample⟩,
                    [StepEvent.start_hooks env.n_start,
                     StepEvent.get_actuation,
                     StepEvent.pre_sim_hooks env.n_pre act,
                     StepEvent.advance_call (env.clock 1 - env.clock 0) act,
                     StepEvent.set_last_update (env.clock 2),
                     StepEvent.sensor_assign,
                     StepEvent.end_hooks env.n_end,
                     StepEvent.inc_step]) := by
                simp [Plant.step, Plant.mk, ha, hadv, hs]
              rw [hstep] at h
              have htr := ((Prod.mk.injEq _ _ _ _).mp (Except.ok.inj h)).2
              refine ⟨act, ?_⟩
              rw [← htr]
              simp

/-- Witness for C10: on the concrete integer environment the first step's
`advance` receives `dt = 200 - 100 = 100`, the elapsed readings since
construction. -/
theorem first_dt_measures_time_since_construction_witness :
    ∃ act, StepEvent.advance_call (envFix.clock 1 - envFix.clock 0) act ∈
      [StepEvent.start_hooks (α := Int) 2,
       StepEvent.get_actuation,
       StepEvent.pre_sim_hooks 1 (some 5),
       StepEvent.advance_call 100 (some 5),
       StepEvent.set_last_update 300,
       StepEvent.sensor_assign,
       StepEvent.end_hooks 3,
       StepEvent.inc_step] :=
  first_dt_measures_time_since_construction envFix 7 ⟨112, 300, 1, 3, some 7⟩
    [StepEvent.start_hooks 2,
     StepEvent.get_actuation,
     StepEvent.pre_sim_hooks 1 (some 5),
     StepEvent.advance_call 100 (some 5),
     StepEvent.set_last_update 300,
     StepEvent.sensor_assign,
     StepEvent.end_hooks 3,
     StepEvent.inc_step] rfl

/-- C8: an exception from any step-body operation — `get_next_actuation`,
`advance`, or the sensor sample assignment — propagates out of the step and
out of the periodic driver, and `Plant.run` then logs it, sets the shutdown
event, shuts down both the sensor and the actuator, and returns without
re-raising. -/
theorem plant_run_catches_step_errors (env : PlantEnv σ π α)
    (flag : Nat → Bool) (fuel : Nat) (s : PlantState σ π) (e : String) :
    ((execute_periodically env flag fuel s).2 = some e →
      Plant.run env flag fuel s =
        ⟨(execute_periodically env flag fuel s).1, true, true, true,
         some e⟩) ∧
    (env.get_next_actuation s.step_cnt = Except.error e →
      Plant.step env s = Except.error e) ∧
    (∀ act, env.get_next_actuation s.step_cnt = Except.ok act →
      env.advance s.state (env.clock s.clock_idx - s.last_update) act =
        Except.error e →
      Plant.step env s = Except.error e) ∧
    (∀ act st sample, env.get_next_actuation s.step_cnt = Except.ok act →
      env.advance s.state (env.clock s.clock_idx - s.last_update) act =
        Except.ok (st, sample) →
      env.sensor_set sample = Except.error e →
      Plant.step env s = Except.error e) ∧
    (flag s.step_cnt = false → Plant.step env s = Except.error e →
      (execute_periodically env flag (fuel + 1) s).2 = some e) := by
  refine ⟨fun h => ?_, fun h => ?_, fun act h1 h2 => ?_,
    fun act st sample h1 h2 h3 => ?_, fun hfl hstep => ?_⟩
  · simp [Plant.run, h]
  · simp [Plant.step, h]
  · simp [Plant.step, h1, h2]
  · simp [Plant.step, h1, h2, h3]
  · simp [execute_periodically, hfl, hstep]

/-- Witness for C8: a raising `advance` aborts the loop after one step and
`Plant.run` logs it, sets the shutdown event and shuts down sensor and
actuator. -/
theorem plant_run_catches_step_errors_witness :
    Plant.step envBoom (Plant.mk envBoom 0) = Except.error "boom" ∧
    (execute_periodically envBoom (fun _ => false) 1
        (Plant.mk envBoom 0)).2 = some "boom" ∧
    Plant.run envBoom (fun _ => false) 1 (Plant.mk envBoom 0) =
      ⟨Plant.mk envBoom 0, true, true, true, some "boom"⟩ := by
  have hstep : Plant.step envBoom (Plant.mk envBoom 0) =
      Except.error "boom" :=
    (plant_run_catches_step_errors envBoom (fun _ => false) 0
        (Plant.mk envBoom 0) "boom").2.2.1 none rfl rfl
  have hloop : (execute_periodically envBoom (fun _ => false) 1
      (Plant.mk envBoom 0)).2 = some "boom" :=
    (plant_run_catches_step_errors envBoom (fun _ => false) 0
        (Plant.mk envBoom 0) "boom").2.2.2.2 rfl hstep
  exact ⟨hstep, hloop,
    (plant_run_catches_step_errors envBoom (fun _ => false) 1
        (Plant.mk envBoom 0) "boom").1 hloop⟩

end Cleave
